import Mathlib

/-!
Verification of the CSF (Component Story Format) loader of this repository.

The repository ships the loader's test suite (`src/unnamed/part_000`, the
jest tests for `loadCsf`) but not `loadCsf.ts` itself, so the loader below is
modelled from the specification (spec.md §3, §4.1, §6–§8), with the test
file's concrete assertions pinning the points the spec leaves open (for
example the `fileName` entry of the kind-level parameters).

The embedding follows the spec's own design note: `configure` is a pure
function of (previous load state, modules, framework name) returning the
ordered list of external calls (story registry calls and diagnostics) and
the new load state.
-/

namespace Storybook

/-- Modelled from the spec: an opaque JavaScript value as far as the loader is
concerned (parameter values, args payloads, component references, render
functions and decorators identified by a numeric tag). The loader never
inspects these values; it only moves them around. -/
inductive Val where
  | str (s : String)
  | num (n : Nat)
  | fn (id : Nat)
  | vlist (vs : List Val)

/-- A parameters object: an ordered association list of string keys to values,
standing for a JavaScript object literal. -/
abbrev Params := List (String × Val)

/-- First-match lookup of a key in a parameters object. -/
def lookupParam (ps : Params) (k : String) : Option Val :=
  match ps with
  | [] => none
  | e :: rest => if e.1 == k then some e.2 else lookupParam rest k

/-- Modelled from the spec: JavaScript object-spread merge of two parameter
objects, as in the spec's "per-story values override kind-level values on key
collision". Keys of `p` come first (taking `q`'s value on collision), then the
keys of `q` not present in `p`, in order. -/
def mergeParams (p q : Params) : Params :=
  p.map (fun e =>
    match lookupParam q e.1 with
    | some v => (e.1, v)
    | none => e)
  ++ q.filter (fun e => (lookupParam p e.1).isNone)

/-- An optional single-entry parameters object, for optional keys such as
`component`, `args` or `argTypes`. -/
def optEntry (k : String) : Option Val → Params
  | some v => [(k, v)]
  | none => []

/-- Modelled from the spec: the deprecated nested `story` object carried on an
exported story function (`story.name`, `story.parameters`, `story.decorators`,
`story.args`, `story.argTypes`). -/
structure NestedStory where
  name : Option String := none
  parameters : Params := []
  decorators : Option (List Nat) := none
  args : Option Val := none
  argTypes : Option Val := none

/-- Modelled from the spec: a named export of a story module — the render
function (identified by `fn`) with its optional per-story metadata, either
direct properties on the function (modern form) or the deprecated nested
`story` object. -/
structure StoryExport where
  fn : Nat
  storyName : Option String := none
  story : Option NestedStory := none
  parameters : Params := []
  decorators : Option (List Nat) := none
  args : Option Val := none
  argTypes : Option Val := none

/-- Modelled from the spec: the default export of a CSF module — component
metadata: title, optional explicit id, optional component / subcomponents
references, kind-level parameters, decorators, args, argTypes, and the
includeStories / excludeStories filters. -/
structure DefaultExport where
  title : Option String := none
  id : Option String := none
  component : Option Val := none
  subcomponents : Option Val := none
  parameters : Params := []
  decorators : List Nat := []
  args : Option Val := none
  argTypes : Option Val := none
  includeStories : Option (List String) := none
  excludeStories : Option (List String) := none

/-- Modelled from the spec: one module record discovered by context
enumeration: the default export (absent for a malformed / non-CSF module),
the named exports in natural enumeration order, and the optional
`__namedExportsOrder` sequence. -/
structure ModuleRecord where
  defaultExport : Option DefaultExport := none
  namedExports : List (String × StoryExport) := []
  namedExportsOrder : Option (List String) := none

/-- The load state: a mapping from kind title to the ordered list of export
names most recently registered under that kind. -/
abbrev LoadState := List (String × List String)

/-- First-match lookup of a kind title in a load state. -/
def lookupKind (st : LoadState) (t : String) : Option (List String) :=
  match st with
  | [] => none
  | e :: rest => if e.1 == t then some e.2 else lookupKind rest t

/-- Collapse every run of consecutive hyphens to a single hyphen. -/
def squashDashes : List Char → List Char
  | [] => []
  | [c] => [c]
  | c :: d :: rest =>
    if c = '-' && d = '-' then squashDashes (d :: rest)
    else c :: squashDashes (d :: rest)

/-- Modelled from the spec: the slug transform used for story ids — lowercase,
every non-alphanumeric character collapsed to a hyphen, runs of hyphens
squashed, leading and trailing hyphens stripped. -/
def sanitize (s : String) : String :=
  let mapped := s.data.map (fun c => if c.isAlphanum then c.toLower else '-')
  String.mk ((((squashDashes mapped).dropWhile (· = '-')).reverse.dropWhile (· = '-')).reverse)

/-- Modelled from the spec: a story id is the sanitized component id and the
sanitized export name joined by a double hyphen. -/
def toId (cid exportName : String) : String :=
  sanitize cid ++ "--" ++ sanitize exportName

/-- Word-boundary split of an export name: a new word starts at an uppercase
letter or at a digit / non-digit transition. `prev` is the previous character
and `cur` the current word accumulated in reverse. -/
def splitCamelGo : Char → List Char → List Char → List (List Char)
  | _, cur, [] => [cur.reverse]
  | prev, cur, c :: rest =>
    if c.isUpper || (c.isDigit != prev.isDigit) then
      cur.reverse :: splitCamelGo c [c] rest
    else
      splitCamelGo c (c :: cur) rest

/-- Split a name into its camel-case words. -/
def splitCamel : List Char → List (List Char)
  | [] => []
  | c :: rest => splitCamelGo c [c] rest

/-- Uppercase the first character of a word. -/
def capitalizeWord : List Char → String
  | [] => ""
  | c :: rest => String.mk (c.toUpper :: rest)

/-- Modelled from the spec: the derived human-readable display name of an
export — uppercase the first letter of each word of a word-boundary split of
the export name, joined by spaces (numeric export names pass through
unchanged). -/
def storyNameFromExport (name : String) : String :=
  String.intercalate " " ((splitCamel name.data).map capitalizeWord)

/-- Modelled from the spec: the ordered list of export names retained for
registration. `includeStories` keeps exactly the listed names in the include
list's order; otherwise `excludeStories` removes the listed names preserving
natural order; otherwise `__namedExportsOrder` reorders the names to match it
exactly; otherwise natural enumeration order is used. -/
def retainedNames (d : DefaultExport) (m : ModuleRecord) : List String :=
  let names := m.namedExports.map (·.1)
  match d.includeStories with
  | some inc => inc.filter (fun n => names.contains n)
  | none =>
    match d.excludeStories with
    | some exc => names.filter (fun n => !(exc.contains n))
    | none =>
      match m.namedExportsOrder with
      | some ord => ord.filter (fun n => names.contains n)
      | none => names

/-- Modelled from the spec: the kind title is the default export's title, or a
fallback label derived from the module key when the title is falsy (the
normalization of the key is implementation-defined; the key itself is used
here). -/
def kindTitle (key : String) (d : DefaultExport) : String :=
  match d.title with
  | some t => if t = "" then key else t
  | none => key

/-- True when the default export's title is falsy, so that the fallback kind
name is derived and a debug diagnostic is emitted. -/
def titleIsFalsy (d : DefaultExport) : Bool :=
  match d.title with
  | some t => t == ""
  | none => true

/-- Modelled from the spec: the component id used for story ids — the default
export's explicit `id` when given, else the kind title. -/
def componentId (t : String) (d : DefaultExport) : String :=
  match d.id with
  | some i => i
  | none => t

/-- Modelled from the spec: the kind entry a module contributes to the new
load state — its kind title mapped to the retained export names; a malformed
module (no default export) or a module retaining zero stories contributes no
entry. -/
def kindEntry (key : String) (m : ModuleRecord) : Option (String × List String) :=
  match m.defaultExport with
  | none => none
  | some d =>
    let ns := retainedNames d m
    if ns = [] then none else some (kindTitle key d, ns)

/-- The kind entries of a module list, in enumeration order. -/
def kindEntries : List (String × ModuleRecord) → LoadState
  | [] => []
  | km :: rest =>
    match kindEntry km.1 km.2 with
    | some e => e :: kindEntries rest
    | none => kindEntries rest

/-- One externally visible call issued by the loader: story registry calls
(storiesOf / addParameters / addDecorator / add / removeStoryKind /
incrementRevision) and diagnostics (warn / debug). The kind title on the
per-kind calls identifies the storiesOf handle they are issued on. -/
inductive Call where
  | storiesOf (kind : String) (csf : Bool)
  | addParameters (kind : String) (params : Params)
  | addDecorator (kind : String) (dec : Nat)
  | add (kind : String) (displayName : String) (fnId : Nat) (meta : Params)
  | removeStoryKind (kind : String)
  | incrementRevision
  | warn
  | debug

/-- Modelled from the spec: the kind-level parameters object passed to
`addParameters` — framework name, optional component / subcomponents, the
module's enumeration key under `fileName` (pinned by the test suite), spread
with the default export's own parameters, then the kind-level args / argTypes. -/
def kindParams (fw key : String) (d : DefaultExport) : Params :=
  mergeParams
    (mergeParams
      ([("framework", Val.str fw)]
        ++ optEntry "component" d.component
        ++ optEntry "subcomponents" d.subcomponents
        ++ [("fileName", Val.str key)])
      d.parameters)
    (optEntry "args" d.args ++ optEntry "argTypes" d.argTypes)

/-- Modelled from the spec: the metadata object passed as third argument of
`add` for one story — the deprecated nested `story.parameters` spread under
the direct `parameters`, the computed `__id` always overriding, then the
per-story decorators, args and argTypes (direct form preferred over the
nested form). -/
def storyAddMeta (cid name : String) (s : StoryExport) : Params :=
  let nested := s.story.getD {}
  let base := mergeParams nested.parameters s.parameters
  let withId := mergeParams base [("__id", Val.str (toId cid name))]
  let decs :=
    match s.decorators <|> nested.decorators with
    | some ds => [("decorators", Val.vlist (ds.map Val.fn))]
    | none => []
  withId ++ decs ++ optEntry "args" (s.args <|> nested.args)
    ++ optEntry "argTypes" (s.argTypes <|> nested.argTypes)

/-- Modelled from the spec: the display name of one story — the direct
`storyName` property, else the deprecated nested `story.name`, else the name
derived from the export name. -/
def displayName (name : String) (s : StoryExport) : String :=
  match s.storyName <|> (s.story.bind (·.name)) with
  | some n => n
  | none => storyNameFromExport name

/-- Modelled from the spec: the calls issued for one retained export name — a
debug diagnostic when the deprecated nested `story` object is used, then the
`add` call with display name, render function and merged metadata. An export
name not found among the named exports issues nothing. -/
def storyCallsFor (t cid : String) (m : ModuleRecord) (name : String) : List Call :=
  match m.namedExports.find? (fun e => e.1 == name) with
  | none => []
  | some e =>
    let s := e.2
    (if s.story.isSome then [Call.debug] else [])
      ++ [Call.add t (displayName name s) s.fn (storyAddMeta cid name s)]

/-- Concatenation of the call lists produced for each element of a list. -/
def flatMapCalls (f : α → List Call) : List α → List Call
  | [] => []
  | a :: as => f a ++ flatMapCalls f as

/-- Modelled from the spec: the registration calls for one module that
retains at least one story — `storiesOf(title, true)`, the kind-level
`addParameters`, one `addDecorator` per kind-level decorator, then the story
`add` calls in the retained order. -/
def registrationCalls (fw key : String) (d : DefaultExport) (m : ModuleRecord)
    (t : String) (ns : List String) : List Call :=
  [Call.storiesOf t true, Call.addParameters t (kindParams fw key d)]
    ++ d.decorators.map (fun dec => Call.addDecorator t dec)
    ++ flatMapCalls (storyCallsFor t (componentId t d) m) ns

/-- Modelled from the spec: the calls issued while processing one module of
the pass. A malformed module (no default export) degrades to a debug
diagnostic; a falsy title adds a debug diagnostic and falls back to the key;
zero retained stories degrades to a warning with no registration; a kind
whose export-name list is identical to the previous load state is left
untouched (no calls at all); otherwise the module is registered. -/
def moduleCalls (prev : LoadState) (fw : String) (key : String) (m : ModuleRecord) : List Call :=
  match m.defaultExport with
  | none => [Call.debug]
  | some d =>
    let t := kindTitle key d
    let titleDiag := if titleIsFalsy d then [Call.debug] else []
    let ns := retainedNames d m
    if ns = [] then titleDiag ++ [Call.warn]
    else if lookupKind prev t = some ns then []
    else titleDiag ++ registrationCalls fw key d m t ns

/-- The calls of each module of the pass, in enumeration order. -/
def passCalls (prev : LoadState) (fw : String) : List (String × ModuleRecord) → List Call
  | [] => []
  | km :: rest => moduleCalls prev fw km.1 km.2 ++ passCalls prev fw rest

/-- Modelled from the spec: the reconciliation set — the entries of the
previous load state whose kind is absent from the new kind set or whose
export-name list changed. Each triggers one `removeStoryKind`, and a
revision increment is owed when the set is nonempty. -/
def staleKinds (prev newKinds : LoadState) : LoadState :=
  prev.filter (fun e => !(lookupKind newKinds e.1 == some e.2))

/-- Modelled from the spec: `configure(moduleContext, hostModule, framework)`
as a pure function of the previous load state (empty on a first load or when
no hot-reload handle is present), the enumerated modules and the framework
name. It returns the ordered external calls of the pass — removals of stale
kinds first, then per-module processing, then at most one
`incrementRevision` — and the new load state handed to the next pass by the
dispose mechanism. -/
def configure (prev : LoadState) (mods : List (String × ModuleRecord)) (fw : String) :
    List Call × LoadState :=
  let newKinds := kindEntries mods
  let stale := staleKinds prev newKinds
  (stale.map (fun e => Call.removeStoryKind e.1)
      ++ passCalls prev fw mods
      ++ (if stale.isEmpty then [] else [Call.incrementRevision]),
    newKinds)

/-- Modelled from the spec: the parameters effective for one story after the
registry merges the story-level metadata of `add` over the kind-level
parameters of `addParameters` (story values override kind values on key
collision). -/
def effectiveStoryParams (kindLevel storyLevel : Params) : Params :=
  mergeParams kindLevel storyLevel

/-- True for calls into the story registry, false for diagnostics. -/
def isRegistryCall : Call → Bool
  | .warn => false
  | .debug => false
  | _ => true

/-- The registry calls of a pass, diagnostics filtered out. -/
def registryCalls (cs : List Call) : List Call :=
  cs.filter isRegistryCall

/-- True for a warning diagnostic. -/
def isWarnCall : Call → Bool
  | .warn => true
  | _ => false

/-- True for a debug diagnostic. -/
def isDebugCall : Call → Bool
  | .debug => true
  | _ => false

/-- True for any `storiesOf` call. -/
def isStoriesOfCall : Call → Bool
  | .storiesOf _ _ => true
  | _ => false

/-- True for a `storiesOf` call registering the given kind. -/
def isStoriesOfFor (t : String) : Call → Bool
  | .storiesOf k _ => k == t
  | _ => false

/-- True for any `removeStoryKind` call. -/
def isRemoveCall : Call → Bool
  | .removeStoryKind _ => true
  | _ => false

/-- True for a `removeStoryKind` call removing the given kind. -/
def isRemoveFor (t : String) : Call → Bool
  | .removeStoryKind k => k == t
  | _ => false

/-- True for an `incrementRevision` call. -/
def isIncrementCall : Call → Bool
  | .incrementRevision => true
  | _ => false

/-- True for a `storiesOf` call registering the given kind with the CSF flag
set. -/
def isCsfStoriesOfFor (t : String) : Call → Bool
  | .storiesOf k b => k == t && b
  | _ => false

/-- The display names of the `add` calls issued for the given kind, in call
order. -/
def addNamesFor (t : String) (cs : List Call) : List String :=
  cs.filterMap (fun c =>
    match c with
    | .add k n _ _ => if k == t then some n else none
    | _ => none)

/-- A story export carrying no metadata, just the render function. -/
def plainStory (f : Nat) : StoryExport := { fn := f }

/-- The one-story module of kind `a` used by the hot-reload scenarios. -/
def hmrModA (f : Nat) : ModuleRecord :=
  { defaultExport := some { title := some "a" },
    namedExports := [("x", plainStory f)] }

/-- The one-story module of kind `b` used by the hot-reload scenarios. -/
def hmrModB (f : Nat) : ModuleRecord :=
  { defaultExport := some { title := some "b" },
    namedExports := [("x", plainStory f)] }

/-- The module of kind `a` after an export `y` is added to it between loads. -/
def hmrModA2 (f g : Nat) : ModuleRecord :=
  { defaultExport := some { title := some "a" },
    namedExports := [("x", plainStory f), ("y", plainStory g)] }

/-- Four plain named exports in natural enumeration order x, y, z, w. -/
def fourExports (f1 f2 f3 f4 : Nat) : List (String × StoryExport) :=
  [("x", plainStory f1), ("y", plainStory f2), ("z", plainStory f3),
   ("w", plainStory f4)]

/-- The calls of the reload pass in which kind `a` is unchanged and kind `b`
is freshly added. -/
def additionPassCalls (f g hb : Nat) : List Call :=
  (configure (configure [] [("a", hmrModA f)] "react").2
    [("a", hmrModA g), ("b", hmrModB hb)] "react").1

/-- The calls of the reload pass in which kind `a` is unchanged and kind `b`
has disappeared from the module set. -/
def removalPassCalls (f g : Nat) : List Call :=
  (configure (configure [] [("a", hmrModA f), ("b", hmrModB g)] "react").2
    [("a", hmrModA f)] "react").1

/-- The calls of the reload pass in which kind `a` gained export `y` and kind
`b` is unchanged. -/
def changePassCalls (f g fy : Nat) : List Call :=
  (configure (configure [] [("a", hmrModA f), ("b", hmrModB g)] "react").2
    [("a", hmrModA2 f fy), ("b", hmrModB g)] "react").1

/-- A first-load pass over one module of kind `a` with exports x, y, z, w and
an includeStories filter listing z then x. -/
def includeFilterPass (f1 f2 f3 f4 : Nat) : List Call × LoadState :=
  configure []
    [("a", { defaultExport := some { title := some "a",
                                     includeStories := some ["z", "x"] },
             namedExports := fourExports f1 f2 f3 f4 })] "react"

/-- A first-load pass over one module of kind `a` with exports x, y, z, w and
an excludeStories filter listing x and z. -/
def excludeFilterPass (f1 f2 f3 f4 : Nat) : List Call × LoadState :=
  configure []
    [("a", { defaultExport := some { title := some "a",
                                     excludeStories := some ["x", "z"] },
             namedExports := fourExports f1 f2 f3 f4 })] "react"

/-- A first-load pass over one module of kind `a` with exports x, y, z, w and
a __namedExportsOrder sequence w, x, z, y. -/
def exportOrderPass (f1 f2 f3 f4 : Nat) : List Call × LoadState :=
  configure []
    [("a", { defaultExport := some { title := some "a" },
             namedExports := fourExports f1 f2 f3 f4,
             namedExportsOrder := some ["w", "x", "z", "y"] })] "react"

end Storybook

namespace Storybook

/-- Key lookup distributes over list append, preferring the left list. -/
theorem lookupParam_append (p q : Params) (k : String) :
    lookupParam (p ++ q) k
      = match lookupParam p k with
        | some v => some v
        | none => lookupParam q k := by
  induction p with
  | nil => simp [lookupParam]
  | cons e rest ih =>
    by_cases h : e.1 = k
    · simp [lookupParam, h]
    · simp [lookupParam, h, ih]

/-- Updating the values of a parameters object from a source object that
lacks a key leaves the lookup of that key unchanged. -/
theorem lookupParam_map_update (p q : Params) (k : String)
    (hq : lookupParam q k = none) :
    lookupParam (p.map (fun e =>
        match lookupParam q e.1 with
        | some v => (e.1, v)
        | none => e)) k = lookupParam p k := by
  induction p with
  | nil => simp [lookupParam]
  | cons e rest ih =>
    by_cases h : e.1 = k
    · subst h
      simp [lookupParam, List.map_cons, hq]
    · cases hqe : lookupParam q e.1 <;> simp [lookupParam, h, ih, hqe]

/-- A key absent from a parameters object is absent from any filtering of
it. -/
theorem lookupParam_filter_none (q : Params) (pred : String × Val → Bool)
    (k : String) (hq : lookupParam q k = none) :
    lookupParam (q.filter pred) k = none := by
  induction q with
  | nil => simp [lookupParam]
  | cons e rest ih =>
    by_cases h : e.1 = k
    · simp [lookupParam, h] at hq
    · simp only [lookupParam, h] at hq
      have hq' : lookupParam rest k = none := by
        simpa [h] using hq
      cases hp : pred e <;> simp [List.filter_cons, hp, lookupParam, h, ih hq']

/-- Merging a parameters object with one that lacks a key leaves the lookup
of that key unchanged. -/
theorem lookupParam_mergeParams_of_none (p q : Params) (k : String)
    (hq : lookupParam q k = none) :
    lookupParam (mergeParams p q) k = lookupParam p k := by
  rw [mergeParams, lookupParam_append, lookupParam_map_update p q k hq]
  cases hp : lookupParam p k with
  | some v => rfl
  | none => simp [lookupParam_filter_none q _ k hq]

/-- An optional single-entry object for a different key never resolves the
lookup. -/
theorem lookupParam_optEntry_ne (kq k : String) (v : Option Val) (h : kq ≠ k) :
    lookupParam (optEntry kq v) k = none := by
  cases v <;> simp [optEntry, lookupParam, h]

/-- Appending module lists appends their kind entries. -/
theorem kindEntries_append (l1 l2 : List (String × ModuleRecord)) :
    kindEntries (l1 ++ l2) = kindEntries l1 ++ kindEntries l2 := by
  induction l1 with
  | nil => simp [kindEntries]
  | cons km rest ih =>
    cases h : kindEntry km.1 km.2 <;> simp [kindEntries, h, ih]

/-- Appending module lists appends their pass calls. -/
theorem passCalls_append (prev : LoadState) (fw : String)
    (l1 l2 : List (String × ModuleRecord)) :
    passCalls prev fw (l1 ++ l2) = passCalls prev fw l1 ++ passCalls prev fw l2 := by
  induction l1 with
  | nil => simp [passCalls]
  | cons km rest ih => simp [passCalls, ih]

end Storybook

namespace Storybook

/-- C2: with a hot-reload handle present, re-invoking configure after dispose
with kind `a` carrying the same export-name set as the previous load and kind
`b` freshly added issues no removeStoryKind call and no incrementRevision
call, while the fresh kind `b` still gets its storiesOf and add calls. -/
theorem C2_hmr_unchanged_kinds_trigger_no_reconciliation (f g hb : Nat) :
    (additionPassCalls f g hb).countP isRemoveCall = 0
      ∧ (additionPassCalls f g hb).countP isIncrementCall = 0
      ∧ (additionPassCalls f g hb).countP (isCsfStoriesOfFor "b") = 1
      ∧ addNamesFor "b" (additionPassCalls f g hb) = ["X"] :=
  ⟨rfl, rfl, rfl, rfl⟩

/-- C3: with a hot-reload handle present, a kind `b` registered in the
previous load but absent from the new module set triggers exactly one
removeStoryKind call with that kind's title, exactly one incrementRevision
call, and no storiesOf call for the removed kind on the new pass. -/
theorem C3_hmr_removed_kind_reconciliation (f g : Nat) :
    (removalPassCalls f g).countP (isRemoveFor "b") = 1
      ∧ (removalPassCalls f g).countP isRemoveCall = 1
      ∧ (removalPassCalls f g).countP isIncrementCall = 1
      ∧ (removalPassCalls f g).countP (isStoriesOfFor "b") = 0 :=
  ⟨rfl, rfl, rfl, rfl⟩

/-- C4: with a hot-reload handle present, adding export `y` to the existing
kind `a` between loads makes the new pass remove the whole kind (exactly one
removeStoryKind, no per-story diff), call incrementRevision exactly once, and
issue a fresh storiesOf call with the CSF flag that re-registers all current
stories of that kind. -/
theorem C4_hmr_changed_kind_is_removed_and_reregistered (f g fy : Nat) :
    (changePassCalls f g fy).countP (isRemoveFor "a") = 1
      ∧ (changePassCalls f g fy).countP isRemoveCall = 1
      ∧ (changePassCalls f g fy).countP isIncrementCall = 1
      ∧ (changePassCalls f g fy).countP (isCsfStoriesOfFor "a") = 1
      ∧ addNamesFor "a" (changePassCalls f g fy) = ["X", "Y"] :=
  ⟨rfl, rfl, rfl, rfl, rfl⟩

/-- C9: on a hot-reload pass, a kind present in both loads with an identical
export-name set is not re-registered at all: in the removal scenario the new
pass issues zero storiesOf calls, and in the fresh-addition scenario the
unchanged kind `a` gets no storiesOf call while the single storiesOf call of
the pass is for the fresh kind `b`. -/
theorem C9_hmr_unchanged_kind_not_reregistered (f g : Nat) :
    (removalPassCalls f g).countP isStoriesOfCall = 0
      ∧ (additionPassCalls f f g).countP (isStoriesOfFor "a") = 0
      ∧ (additionPassCalls f f g).countP isStoriesOfCall = 1
      ∧ (additionPassCalls f f g).countP (isCsfStoriesOfFor "b") = 1 :=
  ⟨rfl, rfl, rfl, rfl⟩

/-- C5: over the named exports x, y, z, w in natural enumeration order,
includeStories retains exactly the listed exports in the include list's
order, excludeStories retains the complement in natural order, and
__namedExportsOrder reorders the exports to match the given sequence; the
registered export-name lists of the load state and the display names of the
add calls both follow that order. -/
theorem C5_export_filtering_and_ordering (f1 f2 f3 f4 : Nat) :
    addNamesFor "a" (includeFilterPass f1 f2 f3 f4).1 = ["Z", "X"]
      ∧ (includeFilterPass f1 f2 f3 f4).2 = [("a", ["z", "x"])]
      ∧ addNamesFor "a" (excludeFilterPass f1 f2 f3 f4).1 = ["Y", "W"]
      ∧ (excludeFilterPass f1 f2 f3 f4).2 = [("a", ["y", "w"])]
      ∧ addNamesFor "a" (exportOrderPass f1 f2 f3 f4).1 = ["W", "X", "Z", "Y"]
      ∧ (exportOrderPass f1 f2 f3 f4).2 = [("a", ["w", "x", "z", "y"])] :=
  ⟨rfl, rfl, rfl, rfl, rfl, rfl⟩

end Storybook

namespace Storybook

/-- C6: kind-level parameters, args, argTypes and decorators are forwarded
via addParameters and addDecorator; per-story values given either directly on
the exported function or via the deprecated nested story object land in the
add call's metadata merged with the computed id, the deprecated form emitting
exactly one debug diagnostic and the modern form none; and after the registry
merges story-level over kind-level parameters, a colliding key takes the
story value while __id is always the computed story id. -/
theorem C6_parameter_and_decorator_forwarding
    (vp vz va vt va2 vt2 bogus vkind vstory : Val) (d1 d2 dec f : Nat) :
    (configure []
        [("a", { defaultExport := some { title := some "a",
                                         parameters := [("p", vp)],
                                         decorators := [d1, d2],
                                         args := some va, argTypes := some vt },
                 namedExports := [("x", plainStory f)] })] "react").1
      = [Call.storiesOf "a" true,
         Call.addParameters "a"
           [("framework", Val.str "react"), ("fileName", Val.str "a"),
            ("p", vp), ("args", va), ("argTypes", vt)],
         Call.addDecorator "a" d1, Call.addDecorator "a" d2,
         Call.add "a" "X" f [("__id", Val.str "a--x")]]
    ∧ (configure []
        [("a", { defaultExport := some { title := some "a" },
                 namedExports := [("x",
                   { fn := f,
                     story := some { name := some "CustomName",
                                     parameters := [("z", vz)],
                                     decorators := some [dec],
                                     args := some va2,
                                     argTypes := some vt2 } })] })] "react").1
      = [Call.storiesOf "a" true,
         Call.addParameters "a"
           [("framework", Val.str "react"), ("fileName", Val.str "a")],
         Call.debug,
         Call.add "a" "CustomName" f
           [("z", vz), ("__id", Val.str "a--x"),
            ("decorators", Val.vlist [Val.fn dec]),
            ("args", va2), ("argTypes", vt2)]]
    ∧ (configure []
        [("a", { defaultExport := some { title := some "a" },
                 namedExports := [("x",
                   { fn := f, parameters := [("z", vz)],
                     decorators := some [dec],
                     args := some va2, argTypes := some vt2 })] })] "react").1
      = [Call.storiesOf "a" true,
         Call.addParameters "a"
           [("framework", Val.str "react"), ("fileName", Val.str "a")],
         Call.add "a" "X" f
           [("z", vz), ("__id", Val.str "a--x"),
            ("decorators", Val.vlist [Val.fn dec]),
            ("args", va2), ("argTypes", vt2)]]
    ∧ lookupParam (effectiveStoryParams
        (kindParams "react" "a" { title := some "a", parameters := [("z", vkind)] })
        (storyAddMeta "a" "x" { fn := f, parameters := [("z", vstory), ("__id", bogus)] }))
        "z" = some vstory
    ∧ lookupParam (effectiveStoryParams
        (kindParams "react" "a" { title := some "a", parameters := [("z", vkind)] })
        (storyAddMeta "a" "x" { fn := f, parameters := [("z", vstory), ("__id", bogus)] }))
        "__id" = some (Val.str "a--x") :=
  ⟨rfl, rfl, rfl, rfl, rfl⟩

end Storybook

namespace Storybook

/-- C1: for a module whose default export has a nonempty title T and whose
named exports are story functions, configure registers the kind with
storiesOf(T, true) and calls add once per retained export k with story id
sanitize(T)--sanitize(k) passed as __id; when the default export specifies an
explicit id, the story id is sanitize(id)--sanitize(k) instead of being
derived from the title. -/
theorem C1_csf_exports_register_storiesOf_and_add
    (T k1 k2 key fw I : String) (f1 f2 : Nat) (hT : T ≠ "") (hk : k1 ≠ k2) :
    configure [] [(key,
        { defaultExport := some { title := some T },
          namedExports := [(k1, plainStory f1), (k2, plainStory f2)] })] fw
      = ([Call.storiesOf T true,
          Call.addParameters T [("framework", Val.str fw), ("fileName", Val.str key)],
          Call.add T (storyNameFromExport k1) f1 [("__id", Val.str (toId T k1))],
          Call.add T (storyNameFromExport k2) f2 [("__id", Val.str (toId T k2))]],
         [(T, [k1, k2])])
    ∧ configure [] [(key,
        { defaultExport := some { title := some T, id := some I },
          namedExports := [(k1, plainStory f1)] })] fw
      = ([Call.storiesOf T true,
          Call.addParameters T [("framework", Val.str fw), ("fileName", Val.str key)],
          Call.add T (storyNameFromExport k1) f1 [("__id", Val.str (toId I k1))]],
         [(T, [k1])]) := by
  have hk' : k2 ≠ k1 := Ne.symm hk
  have hkb : (k1 == k2) = false := beq_eq_false_iff_ne.mpr hk
  have hkb' : (k2 == k1) = false := beq_eq_false_iff_ne.mpr hk'
  constructor <;>
    simp [configure, kindEntries, kindEntry, staleKinds, passCalls, moduleCalls,
      kindTitle, titleIsFalsy, retainedNames, registrationCalls, kindParams,
      mergeParams, optEntry, lookupParam, storyCallsFor, storyAddMeta,
      displayName, componentId, flatMapCalls, lookupKind, plainStory,
      List.find?, hT, hk, hk', hkb, hkb']

/-- C1 witness: the theorem instantiated at the test suite's first module —
title a, exports 1 and 2 — yielding storiesOf("a", true) and the two add
calls with ids a--1 and a--2. -/
theorem C1_csf_exports_register_storiesOf_and_add_witness :
    configure [] [("a",
        { defaultExport := some { title := some "a" },
          namedExports := [("1", plainStory 10), ("2", plainStory 11)] })] "react"
      = ([Call.storiesOf "a" true,
          Call.addParameters "a" [("framework", Val.str "react"), ("fileName", Val.str "a")],
          Call.add "a" "1" 10 [("__id", Val.str "a--1")],
          Call.add "a" "2" 11 [("__id", Val.str "a--2")]],
         [("a", ["1", "2"])]) :=
  (C1_csf_exports_register_storiesOf_and_add "a" "1" "2" "a" "react" "random"
    10 11 (by decide) (by decide)).1

/-- C7: a module whose default export yields zero retained story exports —
whether it has no named exports or its filter retains none — triggers exactly
one warning diagnostic, zero storiesOf calls, and contributes no kind to the
load state, while a module retaining at least one story export triggers no
warning. -/
theorem C7_zero_retained_exports_warn (T key fw : String) (f : Nat)
    (hT : T ≠ "") :
    configure [] [(key, { defaultExport := some { title := some T } })] fw
      = ([Call.warn], [])
    ∧ configure [] [(key,
        { defaultExport := some { title := some T, includeStories := some [] },
          namedExports := [("x", plainStory f)] })] fw
      = ([Call.warn], [])
    ∧ (configure [] [(key,
        { defaultExport := some { title := some T },
          namedExports := [("x", plainStory f)] })] fw).1.countP isWarnCall = 0 := by
  refine ⟨?_, ?_, ?_⟩ <;>
    simp [configure, kindEntries, kindEntry, staleKinds, passCalls, moduleCalls,
      kindTitle, titleIsFalsy, retainedNames, registrationCalls, kindParams,
      mergeParams, optEntry, lookupParam, storyCallsFor, storyAddMeta,
      displayName, componentId, flatMapCalls, lookupKind, plainStory,
      List.find?, List.countP_cons, List.countP_nil, isWarnCall, hT]

/-- C7 witness: the theorem instantiated at the test suite's
MissingExportsComponent module. -/
theorem C7_zero_retained_exports_warn_witness :
    configure [] [("a",
        { defaultExport := some { title := some "MissingExportsComponent" } })] "react"
      = ([Call.warn], []) :=
  (C7_zero_retained_exports_warn "MissingExportsComponent" "a" "react" 0
    (by decide)).1

end Storybook

namespace Storybook

/-- C8: configure never propagates a failure for a malformed module (one
without a usable default export): inserting such a module anywhere in the
enumeration leaves the registry calls and the new load state of the pass
unchanged — the failure degrades to a diagnostic and every other module is
still processed. -/
theorem C8_malformed_module_never_aborts_the_pass (prev : LoadState)
    (ms1 ms2 : List (String × ModuleRecord)) (key fw : String)
    (m : ModuleRecord) (hm : m.defaultExport = none) :
    registryCalls (configure prev (ms1 ++ (key, m) :: ms2) fw).1
      = registryCalls (configure prev (ms1 ++ ms2) fw).1
    ∧ (configure prev (ms1 ++ (key, m) :: ms2) fw).2
      = (configure prev (ms1 ++ ms2) fw).2 := by
  have hke : kindEntries ((key, m) :: ms2) = kindEntries ms2 := by
    simp [kindEntries, kindEntry, hm]
  have hkinds : kindEntries (ms1 ++ (key, m) :: ms2) = kindEntries (ms1 ++ ms2) := by
    rw [kindEntries_append, hke, ← kindEntries_append]
  have hpass : passCalls prev fw (ms1 ++ (key, m) :: ms2)
      = passCalls prev fw ms1 ++ Call.debug :: passCalls prev fw ms2 := by
    rw [passCalls_append]
    simp [passCalls, moduleCalls, hm]
  constructor
  · simp only [configure, hkinds, hpass, registryCalls, passCalls_append,
      List.filter_append, List.filter_cons]
    simp [isRegistryCall]
  · simp only [configure, hkinds]

/-- C8 witness: a malformed module inserted between two well-formed modules
leaves the registry calls of the pass unchanged. -/
theorem C8_malformed_module_never_aborts_the_pass_witness :
    ({ } : ModuleRecord).defaultExport = none
    ∧ registryCalls (configure [] ([("good", hmrModA 1)] ++ ("bad", { }) :: [("also", hmrModB 2)]) "react").1
        = registryCalls (configure [] ([("good", hmrModA 1)] ++ [("also", hmrModB 2)]) "react").1 :=
  ⟨rfl, (C8_malformed_module_never_aborts_the_pass [] [("good", hmrModA 1)]
    [("also", hmrModB 2)] "bad" "react" { } rfl).1⟩

end Storybook

namespace Storybook

/-- C10: for a registered module, the kind-level parameters passed to
addParameters carry a fileName key holding the module's enumeration key, in
addition to the framework key, whenever the module's own parameters do not
redefine those keys; the addParameters call of the pass carries exactly that
parameters object. -/
theorem C10_kind_parameters_carry_fileName (fw key T : String) (ps : Params)
    (f : Nat) (hT : T ≠ "")
    (h1 : lookupParam ps "fileName" = none)
    (h2 : lookupParam ps "framework" = none) :
    lookupParam (kindParams fw key { title := some T, parameters := ps })
        "fileName" = some (Val.str key)
    ∧ lookupParam (kindParams fw key { title := some T, parameters := ps })
        "framework" = some (Val.str fw)
    ∧ (configure [] [(key,
        { defaultExport := some { title := some T, parameters := ps },
          namedExports := [("x", plainStory f)] })] fw).1
      = [Call.storiesOf T true,
         Call.addParameters T
           (kindParams fw key { title := some T, parameters := ps }),
         Call.add T (storyNameFromExport "x") f
           [("__id", Val.str (toId T "x"))]] := by
  have houter : ∀ k, lookupParam
      (kindParams fw key { title := some T, parameters := ps }) k
      = lookupParam (mergeParams
          [("framework", Val.str fw), ("fileName", Val.str key)] ps) k := by
    intro k
    show lookupParam (mergeParams (mergeParams
        [("framework", Val.str fw), ("fileName", Val.str key)] ps) []) k = _
    exact lookupParam_mergeParams_of_none _ [] k rfl
  refine ⟨?_, ?_, ?_⟩
  · rw [houter "fileName", lookupParam_mergeParams_of_none _ _ _ h1]
    rfl
  · rw [houter "framework", lookupParam_mergeParams_of_none _ _ _ h2]
    rfl
  · simp [configure, kindEntries, kindEntry, staleKinds, passCalls, moduleCalls,
      kindTitle, titleIsFalsy, retainedNames, registrationCalls, optEntry,
      mergeParams, lookupParam, storyCallsFor, storyAddMeta,
      displayName, componentId, flatMapCalls, lookupKind, plainStory,
      List.find?, hT]

/-- C10 witness: the theorem instantiated at the test module of kind a with
no own parameters, under framework react. -/
theorem C10_kind_parameters_carry_fileName_witness :
    lookupParam (kindParams "react" "a" { title := some "a" }) "fileName"
      = some (Val.str "a")
    ∧ lookupParam (kindParams "react" "a" { title := some "a" }) "framework"
      = some (Val.str "react") :=
  ⟨(C10_kind_parameters_carry_fileName "react" "a" "a" [] 0 (by decide) rfl rfl).1,
   (C10_kind_parameters_carry_fileName "react" "a" "a" [] 0 (by decide) rfl rfl).2.1⟩

end Storybook
